import Mathlib

/-!
Verification of the resilient adapter and normalization layer of
`holiday_peak_lib` (file `holiday_peak_lib/adapters/base.py`).

The definitions below are a shallow embedding of `BaseAdapter` and
`BaseConnector`.  Machine details that only affect wall-clock timing
(backoff sleeps, the event loop, the per-attempt timeout machinery) are
abstracted: time is an explicit `Nat` parameter (`time.monotonic()`),
every state-changing helper takes the current time, and an asynchronous
operation is modelled as a function from the 1-based attempt number to an
`Except` outcome (a timeout is simply one more failing outcome, exactly as
the code's `except Exception` treats it).  Fallible code returns `Except`
or `Option`.
-/

namespace HolidayPeak

/-- A raw upstream payload: the items of a Python `dict[str, ...]`.
Values are abstracted to `Nat` (the resilience layer treats them as
opaque; Python compares them only through `sorted`, i.e. an order). -/
abbrev Payload := List (String × Nat)

/-- A query map, as passed to `BaseAdapter.fetch`. -/
abbrev Query := List (String × Nat)

/-- The list of raw records returned by `_fetch_impl`. -/
abbrev Records := List Payload

/-- A cache key: `tuple(sorted(query.items()))`. -/
abbrev CacheKey := List (String × Nat)

/-- The cache `OrderedDict`: association list in LRU order, the head is
the least-recently-used entry (`popitem(last=False)` pops the head) and
the last element is the most-recently-used one.  Each entry stores
`(expires_at, value)`. -/
abbrev Cache := List (CacheKey × Nat × Records)

/-- An exception raised by an `_impl` hook.  `adapterError` corresponds to
Python's `AdapterError`, `other` to any other exception class. -/
inductive Exc where
  | adapterError (msg : String)
  | other (msg : String)
  deriving Repr, DecidableEq

/-- Whether an exception is an `AdapterError`. -/
def Exc.isAdapterError : Exc → Bool
  | .adapterError _ => true
  | .other _ => false

/-- An `AdapterError` raised by the resilience wrapper itself: its message
and the wrapped cause (`raise ... from last_error`). -/
structure AdapterFailure where
  msg : String
  cause : Option Exc
  deriving Repr, DecidableEq

/-- The constructor arguments of `BaseAdapter.__init__` (times in the
abstract `Nat` clock).  `baseDelay` and `maxDelay` only shape backoff
sleeps and `timeout` only bounds one attempt wall-clock; they are carried
for completeness but influence no modelled observable. -/
structure AdapterConfig where
  maxCalls : Nat := 10
  perSeconds : Nat := 1
  cacheTtl : Nat := 30
  cacheSize : Nat := 256
  retries : Nat := 3
  baseDelay : Nat := 1
  maxDelay : Nat := 10
  timeout : Nat := 5
  circuitBreakerThreshold : Nat := 5
  circuitResetSeconds : Nat := 30
  deriving Repr, DecidableEq

/-- The mutable per-instance state of `BaseAdapter`: `_rate_window`,
`_cache`, `_failure_count`, `_opened_until`.  Python's `_opened_until` is
a float whose value `0.0` is falsy and means "circuit not open"; here the
value `0` plays that role. -/
structure AdapterState where
  rateWindow : List Nat
  cache : Cache
  failureCount : Nat
  openedUntil : Nat
  deriving Repr, DecidableEq

/-- A fresh adapter state, as produced by `__init__`. -/
def initialState : AdapterState :=
  { rateWindow := [], cache := [], failureCount := 0, openedUntil := 0 }

/-- The comparison used by Python's `sorted` on `(key, value)` pairs:
lexicographic on the pair. -/
def pairLe (a b : String × Nat) : Bool :=
  decide (a.1 < b.1) || (decide (a.1 = b.1) && decide (a.2 ≤ b.2))

/-- `BaseAdapter._cache_key`: `tuple(sorted(query.items()))`. -/
def cacheKey (query : Query) : CacheKey :=
  query.mergeSort pairLe

/-- `while window and now - window[0] > self._per_seconds: window.popleft()`. -/
def trimWindow (per : Nat) (w : List Nat) (now : Nat) : List Nat :=
  w.dropWhile (fun t => decide (per < now - t))

/-- The outcome of one admission check of `_acquire_rate_limit`: either
the caller is admitted (and `now` is appended to the window) or it must
sleep `wait_for = per_seconds - (now - window[0])` and re-check.  There is
no error outcome: the limiter only delays. -/
inductive RateDecision where
  | admitted (window : List Nat)
  | wait (delay : Nat)
  deriving Repr, DecidableEq

/-- Whether an admission decision lets the caller proceed at once. -/
def RateDecision.isAdmitted : RateDecision → Bool
  | .admitted _ => true
  | .wait _ => false

/-- One admission check of `BaseAdapter._acquire_rate_limit`. -/
def rateAdmitStep (cfg : AdapterConfig) (w : List Nat) (now : Nat) : RateDecision :=
  if (trimWindow cfg.perSeconds w now).length < cfg.maxCalls then
    .admitted (trimWindow cfg.perSeconds w now ++ [now])
  else .wait (cfg.perSeconds - (now - (trimWindow cfg.perSeconds w now).headD 0))

/-- `BaseAdapter._ensure_circuit_allows`.  `none` models raising
`AdapterError("Circuit breaker open")`; on `some`, the call proceeds with
the returned (possibly reset) state. -/
def ensureCircuitAllows (st : AdapterState) (now : Nat) : Option AdapterState :=
  if st.openedUntil ≠ 0 ∧ now < st.openedUntil then none
  else if st.openedUntil ≠ 0 ∧ st.openedUntil ≤ now then
    some { st with openedUntil := 0, failureCount := 0 }
  else some st

/-- `BaseAdapter._record_success`: reset `_failure_count` to zero. -/
def recordSuccess (st : AdapterState) : AdapterState :=
  { st with failureCount := 0 }

/-- `BaseAdapter._record_failure`: increment `_failure_count` and, when it
reaches the threshold, set `_opened_until = now + circuit_reset_seconds`. -/
def recordFailure (cfg : AdapterConfig) (st : AdapterState) (now : Nat) : AdapterState :=
  let fc := st.failureCount + 1
  { st with
    failureCount := fc,
    openedUntil :=
      if cfg.circuitBreakerThreshold ≤ fc then now + cfg.circuitResetSeconds
      else st.openedUntil }

/-- Remove every entry with the given key (`OrderedDict` keys are unique,
so at most one is removed in reachable states). -/
def eraseKey (key : CacheKey) (c : Cache) : Cache :=
  c.filter (fun e => decide (e.1 ≠ key))

/-- `self._cache.get(key)`. -/
def lookupKey (key : CacheKey) (c : Cache) : Option (Nat × Records) :=
  match c.find? (fun e => decide (e.1 = key)) with
  | some e => some e.2
  | none => none

/-- `BaseAdapter._get_cached`: returns the cached value (if the TTL gate
passes, the key is present and unexpired) together with the cache after
the call (an expired entry is popped; a hit is moved to the
most-recently-used end). -/
def getCached (cfg : AdapterConfig) (c : Cache) (key : CacheKey) (now : Nat) :
    Option Records × Cache :=
  if cfg.cacheTtl = 0 then (none, c)
  else
    match lookupKey key c with
    | none => (none, c)
    | some entry =>
      if entry.1 < now then (none, eraseKey key c)
      else (some entry.2, eraseKey key c ++ [(key, entry)])

/-- `BaseAdapter._set_cache`: stamp `expires_at = now + cache_ttl`, store
at the most-recently-used end, and evict the least-recently-used entry
(the head) when the size bound is exceeded. -/
def setCache (cfg : AdapterConfig) (c : Cache) (key : CacheKey) (value : Records)
    (now : Nat) : Cache :=
  if cfg.cacheTtl = 0 then c
  else if cfg.cacheSize < (eraseKey key c ++ [(key, (now + cfg.cacheTtl, value))]).length then
    (eraseKey key c ++ [(key, (now + cfg.cacheTtl, value))]).tail
  else eraseKey key c ++ [(key, (now + cfg.cacheTtl, value))]

/-- `BaseAdapter._clear_cache`. -/
def clearCache (st : AdapterState) : AdapterState :=
  { st with cache := [] }

/-- The attempt loop of `_call_with_resilience`, running `op` on attempt
numbers `attempt, attempt+1, ...` with `remaining` further attempts
allowed after the current one.  Returns the outcome of the last attempt,
the state after the recorded successes/failures, and the number of
invocations of `op`.  Matches the Python loop: every failure is recorded
(also the final one, since `_record_failure` precedes the `break`). -/
def retryAttempts (cfg : AdapterConfig) (op : Nat → Except Exc α) (now : Nat) :
    Nat → Nat → AdapterState → (Except Exc α) × AdapterState × Nat
  | attempt, 0, st =>
    match op attempt with
    | .ok v => (.ok v, recordSuccess st, 1)
    | .error e => (.error e, recordFailure cfg st now, 1)
  | attempt, remaining + 1, st =>
    match op attempt with
    | .ok v => (.ok v, recordSuccess st, 1)
    | .error _e =>
      let r := retryAttempts cfg op now (attempt + 1) remaining (recordFailure cfg st now)
      (r.1, r.2.1, r.2.2 + 1)

/-- `BaseAdapter._call_with_resilience`: rate-limit admission (which
records `now` in the window), then the circuit gate, then the attempt
loop.  The rate limiter only delays, never fails, so its eventual effect
at admission time is the trim-and-append; `now` is the abstract instant
the protected call's bookkeeping happens at.  Returns the public outcome
(`AdapterFailure` models the raised `AdapterError`), the state after the
call, and the number of invocations of `op`. -/
def callWithResilience (cfg : AdapterConfig) (st : AdapterState)
    (op : Nat → Except Exc α) (now : Nat) :
    (Except AdapterFailure α) × AdapterState × Nat :=
  let st0 := { st with rateWindow := trimWindow cfg.perSeconds st.rateWindow now ++ [now] }
  match ensureCircuitAllows st0 now with
  | none => (.error ⟨"Circuit breaker open", none⟩, st0, 0)
  | some st1 =>
    let r := retryAttempts cfg op now 1 cfg.retries st1
    match r.1 with
    | .ok v => (.ok v, r.2.1, r.2.2)
    | .error e => (.error ⟨"Operation failed after retries", some e⟩, r.2.1, r.2.2)

/-- `BaseAdapter.fetch`: cache lookup first; on a hit return the cached
records with zero hook invocations; on a miss run the protected call and,
on success, write the result to the cache. -/
def fetch (cfg : AdapterConfig) (st : AdapterState) (query : Query)
    (op : Nat → Except Exc Records) (now : Nat) :
    (Except AdapterFailure Records) × AdapterState × Nat :=
  let key := cacheKey query
  let g := getCached cfg st.cache key now
  match g.1 with
  | some v => (.ok v, { st with cache := g.2 }, 0)
  | none =>
    let st0 := { st with cache := g.2 }
    let r := callWithResilience cfg st0 op now
    match r.1 with
    | .ok v => (.ok v, { r.2.1 with cache := setCache cfg r.2.1.cache key v now }, r.2.2)
    | .error e => (.error e, r.2.1, r.2.2)

/-- `BaseAdapter.upsert`: the protected call, then (only on success,
since a raised error propagates before `_clear_cache` runs) clear the
whole cache. -/
def upsert (cfg : AdapterConfig) (st : AdapterState) (op : Nat → Except Exc α)
    (now : Nat) : (Except AdapterFailure α) × AdapterState × Nat :=
  let r := callWithResilience cfg st op now
  match r.1 with
  | .ok v => (.ok v, clearCache r.2.1, r.2.2)
  | .error e => (.error e, r.2.1, r.2.2)

/-- `BaseAdapter.delete`: same shape as `upsert`, over the delete hook. -/
def delete (cfg : AdapterConfig) (st : AdapterState) (op : Nat → Except Exc α)
    (now : Nat) : (Except AdapterFailure α) × AdapterState × Nat :=
  let r := callWithResilience cfg st op now
  match r.1 with
  | .ok v => (.ok v, clearCache r.2.1, r.2.2)
  | .error e => (.error e, r.2.1, r.2.2)

/-- `BaseAdapter.connect`: `await self._connect_impl(**kwargs)` — a direct
delegation with no resilience wrapper and no exception translation. -/
def connect (connectImpl : Query → Except Exc Unit) (options : Query) :
    Except Exc Unit :=
  connectImpl options

/-- A Pydantic model class, abstracted to its name (`Model.__name__`) and
its constructor-validation `model(**payload)`: `some` on success, `none`
when construction raises `ValidationError`. -/
structure PModel (α : Type) where
  name : String
  validate : Payload → Option α

/-- `BaseConnector._map_single`: `None` passes through; a validated
payload yields the model instance; a `ValidationError` is rewrapped as
`AdapterError(f"Invalid payload for {model.__name__}")`. -/
def mapSingle (m : PModel α) (payload : Option Payload) :
    Except Exc (Option α) :=
  match payload with
  | none => .ok none
  | some p =>
    match m.validate p with
    | some v => .ok (some v)
    | none => .error (.adapterError ("Invalid payload for " ++ m.name))

/-- One bookkeeping operation on the fetch cache, for stating properties
of arbitrary operation sequences. -/
inductive CacheOp where
  | put (key : CacheKey) (value : Records) (now : Nat)
  | get (key : CacheKey) (now : Nat)
  deriving Repr

/-- Apply one cache operation. -/
def applyCacheOp (cfg : AdapterConfig) (c : Cache) : CacheOp → Cache
  | .put k v n => setCache cfg c k v n
  | .get k n => (getCached cfg c k n).2

/-- Run a sequence of cache operations. -/
def runCacheOps (cfg : AdapterConfig) (c : Cache) : List CacheOp → Cache
  | [] => c
  | o :: os => runCacheOps cfg (applyCacheOp cfg c o) os

/-- Iterate whole protected calls (each against the same operation and at
the same abstract instant), keeping the state. -/
def iterCalls (cfg : AdapterConfig) (op : Nat → Except Exc α) (now : Nat) :
    Nat → AdapterState → AdapterState
  | 0, st => st
  | n + 1, st => (callWithResilience cfg (iterCalls cfg op now n st) op now).2.1

/-! ## Helper lemmas -/

/-- The attempt loop invokes the operation at least once. -/
theorem retryAttempts_count_pos (cfg : AdapterConfig) (op : Nat → Except Exc α)
    (now attempt remaining : Nat) (st : AdapterState) :
    1 ≤ (retryAttempts cfg op now attempt remaining st).2.2 := by
  cases remaining with
  | zero => cases h : op attempt <;> simp [retryAttempts, h]
  | succ r => cases h : op attempt <;> simp [retryAttempts, h]

/-- If the operation fails on attempts `attempt, ..., attempt+j-1` and
succeeds on attempt `attempt+j` (with `j` within the remaining budget),
the loop returns the success after exactly `j+1` invocations. -/
theorem retryAttempts_succeeds (cfg : AdapterConfig) (op : Nat → Except Exc α) (now : Nat) :
    ∀ (j attempt remaining : Nat) (st : AdapterState) (v : α),
      j ≤ remaining →
      (∀ i, attempt ≤ i → i < attempt + j → ∃ e, op i = .error e) →
      op (attempt + j) = .ok v →
      (retryAttempts cfg op now attempt remaining st).1 = .ok v ∧
      (retryAttempts cfg op now attempt remaining st).2.2 = j + 1 := by
  intro j
  induction j with
  | zero =>
    intro attempt remaining st v _ _ hok
    rw [Nat.add_zero] at hok
    cases remaining <;> simp [retryAttempts, hok]
  | succ k ih =>
    intro attempt remaining st v hle hfail hok
    obtain ⟨r, rfl⟩ : ∃ r, remaining = r + 1 := ⟨remaining - 1, by omega⟩
    obtain ⟨e, he⟩ := hfail attempt (Nat.le_refl _) (by omega)
    have hok' : op (attempt + 1 + k) = .ok v := by
      have h : attempt + 1 + k = attempt + (k + 1) := by omega
      rw [h]; exact hok
    have hfail' : ∀ i, attempt + 1 ≤ i → i < attempt + 1 + k → ∃ e, op i = .error e := by
      intro i h1 h2
      exact hfail i (by omega) (by omega)
    have := ih (attempt + 1) r (recordFailure cfg st now) v (by omega) hfail' hok'
    simp only [retryAttempts, he]
    exact ⟨this.1, by rw [this.2]⟩

/-- If the operation fails on every attempt, the loop returns the failure
of its last attempt (`attempt + remaining`) after `remaining + 1`
invocations. -/
theorem retryAttempts_all_fail (cfg : AdapterConfig) (op : Nat → Except Exc α) (now : Nat)
    (efun : Nat → Exc) (hf : ∀ i, op i = .error (efun i)) :
    ∀ (remaining attempt : Nat) (st : AdapterState),
      (retryAttempts cfg op now attempt remaining st).1 = .error (efun (attempt + remaining)) ∧
      (retryAttempts cfg op now attempt remaining st).2.2 = remaining + 1 := by
  intro remaining
  induction remaining with
  | zero =>
    intro attempt st
    simp [retryAttempts, hf attempt]
  | succ r ih =>
    intro attempt st
    have h := ih (attempt + 1) (recordFailure cfg st now)
    have harith : attempt + 1 + r = attempt + (r + 1) := by omega
    rw [harith] at h
    simp only [retryAttempts, hf attempt]
    exact ⟨h.1, by rw [h.2]⟩

/-- If the circuit is not open, the circuit gate lets the call through. -/
theorem ensureCircuitAllows_some (st : AdapterState) (now : Nat)
    (h : ¬(st.openedUntil ≠ 0 ∧ now < st.openedUntil)) :
    ∃ st', ensureCircuitAllows st now = some st' := by
  unfold ensureCircuitAllows
  split
  · exact absurd (by assumption) h
  · split
    · exact ⟨_, rfl⟩
    · exact ⟨_, rfl⟩

/-- The circuit gate never touches the window or the cache. -/
theorem ensureCircuitAllows_frame (st st' : AdapterState) (now : Nat)
    (h : ensureCircuitAllows st now = some st') :
    st'.rateWindow = st.rateWindow ∧ st'.cache = st.cache := by
  unfold ensureCircuitAllows at h
  split at h
  · exact absurd h (by simp)
  · split at h
    · cases h; exact ⟨rfl, rfl⟩
    · cases h; exact ⟨rfl, rfl⟩

/-- Unfolding of `callWithResilience` when the circuit gate admits. -/
theorem callWithResilience_of_allowed (cfg : AdapterConfig) (st st1 : AdapterState)
    (op : Nat → Except Exc α) (now : Nat)
    (h : ensureCircuitAllows
        { st with rateWindow := trimWindow cfg.perSeconds st.rateWindow now ++ [now] } now
      = some st1) :
    callWithResilience cfg st op now =
      (match (retryAttempts cfg op now 1 cfg.retries st1).1 with
        | .ok v => .ok v
        | .error e => .error ⟨"Operation failed after retries", some e⟩,
       (retryAttempts cfg op now 1 cfg.retries st1).2.1,
       (retryAttempts cfg op now 1 cfg.retries st1).2.2) := by
  unfold callWithResilience
  simp only [h]
  cases hr : (retryAttempts cfg op now 1 cfg.retries st1).1 <;> simp [hr]

/-! ## C1: retry contract of the protected call -/

/-- C1: with the circuit not open, a protected call whose operation fails
on its first `k ≤ retries` attempts and then succeeds returns the success
result after exactly `k+1` invocations of the hook; one whose operation
fails on every attempt raises `AdapterError("Operation failed after
retries")` wrapping the last exception, after exactly `retries + 1`
invocations. -/
theorem call_with_resilience_retry_contract
    (cfg : AdapterConfig) (st : AdapterState) (op : Nat → Except Exc α) (now : Nat)
    (hcirc : ¬(st.openedUntil ≠ 0 ∧ now < st.openedUntil)) :
    (∀ k v, k ≤ cfg.retries →
        (∀ i, 1 ≤ i → i ≤ k → ∃ e, op i = .error e) →
        op (k + 1) = .ok v →
        (callWithResilience cfg st op now).1 = .ok v ∧
        (callWithResilience cfg st op now).2.2 = k + 1) ∧
    (∀ efun : Nat → Exc, (∀ i, op i = .error (efun i)) →
        (callWithResilience cfg st op now).1 =
          .error ⟨"Operation failed after retries", some (efun (cfg.retries + 1))⟩ ∧
        (callWithResilience cfg st op now).2.2 = cfg.retries + 1) := by
  obtain ⟨st1, hst1⟩ :=
    ensureCircuitAllows_some
      { st with rateWindow := trimWindow cfg.perSeconds st.rateWindow now ++ [now] } now hcirc
  rw [callWithResilience_of_allowed cfg st st1 op now hst1]
  constructor
  · intro k v hk hfail hok
    have h := retryAttempts_succeeds cfg op now k 1 cfg.retries st1 v hk
      (fun i h1 h2 => hfail i h1 (by omega))
      (by rw [Nat.add_comm 1 k]; exact hok)
    exact ⟨by simp [h.1], by simp [h.2]⟩
  · intro efun hf
    have h := retryAttempts_all_fail cfg op now efun hf cfg.retries 1 st1
    rw [Nat.add_comm 1 cfg.retries] at h
    exact ⟨by simp [h.1], by simp [h.2]⟩

/-- C1 witness: with the default `retries = 3`, an operation failing on
attempts 1 and 2 and succeeding on attempt 3 yields the success after
exactly 3 hook invocations. -/
theorem call_with_resilience_retry_contract_witness :
    (¬(initialState.openedUntil ≠ 0 ∧ 5 < initialState.openedUntil)) ∧
    ((callWithResilience ({ retries := 3 } : AdapterConfig) initialState
        (fun i => if i = 3 then .ok ([] : Records) else .error (.other "boom")) 5).1
      = .ok ([] : Records) ∧
     (callWithResilience ({ retries := 3 } : AdapterConfig) initialState
        (fun i => if i = 3 then .ok ([] : Records) else .error (.other "boom")) 5).2.2
      = 2 + 1) := by
  refine ⟨by decide, ?_⟩
  exact (call_with_resilience_retry_contract ({ retries := 3 } : AdapterConfig) initialState
      (fun i => if i = 3 then .ok ([] : Records) else .error (.other "boom")) 5
      (by decide)).1 2 []
    (by norm_num)
    (fun i h1 h2 => ⟨.other "boom", by
      have h : i ≠ 3 := by omega
      simp [h]⟩)
    (by norm_num)

/-! ## Circuit breaker lemmas -/

/-- Unfolding of the iterated-call helper. -/
theorem iterCalls_succ (cfg : AdapterConfig) (op : Nat → Except Exc α) (now n : Nat)
    (st : AdapterState) :
    iterCalls cfg op now (n + 1) st =
      (callWithResilience cfg (iterCalls cfg op now n st) op now).2.1 := rfl

/-- A single protected call with `retries = 0`, a closed circuit and a
failing operation: it records one failure and raises the
exhausted-retries error after one invocation. -/
theorem callWithResilience_fail_once (cfg : AdapterConfig) (op : Nat → Except Exc α)
    (e : Exc) (st : AdapterState) (now : Nat)
    (hr : cfg.retries = 0) (hop : op 1 = .error e) (hou : st.openedUntil = 0) :
    callWithResilience cfg st op now =
      (.error ⟨"Operation failed after retries", some e⟩,
       recordFailure cfg
         { st with rateWindow := trimWindow cfg.perSeconds st.rateWindow now ++ [now] } now,
       1) := by
  unfold callWithResilience
  simp [ensureCircuitAllows, hou, hr, retryAttempts, hop]

/-- A protected call while the circuit is open: the
`AdapterError("Circuit breaker open")` is raised after the rate-limit
admission, with zero invocations of the hook. -/
theorem callWithResilience_circuit_open (cfg : AdapterConfig) (op : Nat → Except Exc α)
    (st : AdapterState) (now : Nat)
    (h : st.openedUntil ≠ 0) (h2 : now < st.openedUntil) :
    callWithResilience cfg st op now =
      (.error ⟨"Circuit breaker open", none⟩,
       { st with rateWindow := trimWindow cfg.perSeconds st.rateWindow now ++ [now] }, 0) := by
  unfold callWithResilience
  simp [ensureCircuitAllows, h, h2]

/-- After `i ≤ threshold` consecutive failed calls (with `retries = 0`)
from a fresh circuit, the failure count is `i` and the circuit is open
exactly when `i` has reached the threshold. -/
theorem failedCalls_state (cfg : AdapterConfig) (op : Nat → Except Exc α) (e : Exc)
    (now : Nat) (st : AdapterState)
    (hr : cfg.retries = 0) (hop : op 1 = .error e)
    (hfc : st.failureCount = 0) (hou : st.openedUntil = 0)
    (hthr : 0 < cfg.circuitBreakerThreshold) :
    ∀ i, i ≤ cfg.circuitBreakerThreshold →
      (iterCalls cfg op now i st).failureCount = i ∧
      (iterCalls cfg op now i st).openedUntil =
        (if cfg.circuitBreakerThreshold ≤ i then now + cfg.circuitResetSeconds else 0) := by
  intro i
  induction i with
  | zero =>
    intro _
    simp [iterCalls, hfc, hou, Nat.not_le.mpr hthr]
  | succ n ih =>
    intro hle
    have hn := ih (by omega)
    have hou_n : (iterCalls cfg op now n st).openedUntil = 0 := by
      rw [hn.2, if_neg (by omega)]
    rw [iterCalls_succ, callWithResilience_fail_once cfg op e _ now hr hop hou_n]
    simp [recordFailure, hn.1, hou_n]

/-! ## C3: circuit opening and time-based reset -/

/-- C3: with `retries = 0`, after `circuit_breaker_threshold` consecutive
failed protected calls the circuit is open; a further call before
`opened_until` raises `AdapterError("Circuit breaker open")` without
invoking the hook; the first call at or after `opened_until` proceeds
with a reset circuit and invokes the hook (exactly once), and on success
leaves the circuit closed with a zero failure count. -/
theorem circuit_breaker_open_and_reset
    (cfg : AdapterConfig) (op op2 : Nat → Except Exc α) (e : Exc) (st : AdapterState)
    (now t2 t3 : Nat)
    (hr : cfg.retries = 0)
    (hthr : 0 < cfg.circuitBreakerThreshold)
    (hreset : 0 < cfg.circuitResetSeconds)
    (hop : op 1 = .error e)
    (hfc : st.failureCount = 0) (hou : st.openedUntil = 0) :
    ((iterCalls cfg op now cfg.circuitBreakerThreshold st).failureCount =
        cfg.circuitBreakerThreshold ∧
     (iterCalls cfg op now cfg.circuitBreakerThreshold st).openedUntil =
        now + cfg.circuitResetSeconds) ∧
    (t2 < now + cfg.circuitResetSeconds →
      (callWithResilience cfg (iterCalls cfg op now cfg.circuitBreakerThreshold st) op2 t2).1 =
        .error ⟨"Circuit breaker open", none⟩ ∧
      (callWithResilience cfg (iterCalls cfg op now cfg.circuitBreakerThreshold st) op2 t2).2.2 =
        0) ∧
    (now + cfg.circuitResetSeconds ≤ t3 →
      (callWithResilience cfg (iterCalls cfg op now cfg.circuitBreakerThreshold st) op2 t3).2.2 =
        1 ∧
      (∀ v, op2 1 = .ok v →
        (callWithResilience cfg (iterCalls cfg op now cfg.circuitBreakerThreshold st) op2 t3).1 =
          .ok v ∧
        (callWithResilience cfg (iterCalls cfg op now cfg.circuitBreakerThreshold st) op2 t3).2.1.failureCount = 0 ∧
        (callWithResilience cfg (iterCalls cfg op now cfg.circuitBreakerThreshold st) op2 t3).2.1.openedUntil = 0)) := by
  have hstate := failedCalls_state cfg op e now st hr hop hfc hou hthr
    cfg.circuitBreakerThreshold (Nat.le_refl _)
  have hN_ou : (iterCalls cfg op now cfg.circuitBreakerThreshold st).openedUntil =
      now + cfg.circuitResetSeconds := by
    rw [hstate.2, if_pos (Nat.le_refl _)]
  refine ⟨⟨hstate.1, hN_ou⟩, ?_, ?_⟩
  · intro ht2
    rw [callWithResilience_circuit_open cfg op2 _ t2 (by omega) (by omega)]
    exact ⟨rfl, rfl⟩
  · intro ht3
    unfold callWithResilience
    have h1 : ensureCircuitAllows
        { iterCalls cfg op now cfg.circuitBreakerThreshold st with
          rateWindow := trimWindow cfg.perSeconds
            (iterCalls cfg op now cfg.circuitBreakerThreshold st).rateWindow t3 ++ [t3] } t3 =
        some { iterCalls cfg op now cfg.circuitBreakerThreshold st with
          rateWindow := trimWindow cfg.perSeconds
            (iterCalls cfg op now cfg.circuitBreakerThreshold st).rateWindow t3 ++ [t3],
          openedUntil := 0, failureCount := 0 } := by
      unfold ensureCircuitAllows
      rw [if_neg (by simp [hN_ou]; omega), if_pos (by simp [hN_ou]; omega)]
    simp only [h1]
    rw [hr]
    constructor
    · cases hop2 : op2 1 <;> simp [retryAttempts, hop2]
    · intro v hop2
      simp [retryAttempts, hop2, recordSuccess]

/-- C3 witness: threshold 2, reset window 5, two failed calls at time 1
open the circuit until 6; a call at time 3 is rejected with zero hook
invocations; a call at time 6 invokes the hook once and, succeeding,
closes the circuit. -/
theorem circuit_breaker_open_and_reset_witness :
    ((iterCalls ({ retries := 0, circuitBreakerThreshold := 2, circuitResetSeconds := 5 } :
        AdapterConfig)
        (fun _ => (.error (.other "x") : Except Exc Records)) 1 2 initialState).failureCount = 2 ∧
     (iterCalls ({ retries := 0, circuitBreakerThreshold := 2, circuitResetSeconds := 5 } :
        AdapterConfig)
        (fun _ => (.error (.other "x") : Except Exc Records)) 1 2 initialState).openedUntil = 1 + 5) ∧
    (3 < 1 + 5 →
      (callWithResilience ({ retries := 0, circuitBreakerThreshold := 2, circuitResetSeconds := 5 } :
          AdapterConfig)
        (iterCalls ({ retries := 0, circuitBreakerThreshold := 2, circuitResetSeconds := 5 } :
            AdapterConfig)
          (fun _ => (.error (.other "x") : Except Exc Records)) 1 2 initialState)
        (fun _ => (.ok [] : Except Exc Records)) 3).1 = .error ⟨"Circuit breaker open", none⟩ ∧
      (callWithResilience ({ retries := 0, circuitBreakerThreshold := 2, circuitResetSeconds := 5 } :
          AdapterConfig)
        (iterCalls ({ retries := 0, circuitBreakerThreshold := 2, circuitResetSeconds := 5 } :
            AdapterConfig)
          (fun _ => (.error (.other "x") : Except Exc Records)) 1 2 initialState)
        (fun _ => (.ok [] : Except Exc Records)) 3).2.2 = 0) ∧
    (1 + 5 ≤ 6 →
      (callWithResilience ({ retries := 0, circuitBreakerThreshold := 2, circuitResetSeconds := 5 } :
          AdapterConfig)
        (iterCalls ({ retries := 0, circuitBreakerThreshold := 2, circuitResetSeconds := 5 } :
            AdapterConfig)
          (fun _ => (.error (.other "x") : Except Exc Records)) 1 2 initialState)
        (fun _ => (.ok [] : Except Exc Records)) 6).2.2 = 1 ∧
      (∀ v : Records, (fun _ => (.ok [] : Except Exc Records)) 1 = .ok v →
        (callWithResilience ({ retries := 0, circuitBreakerThreshold := 2, circuitResetSeconds := 5 } :
            AdapterConfig)
          (iterCalls ({ retries := 0, circuitBreakerThreshold := 2, circuitResetSeconds := 5 } :
              AdapterConfig)
            (fun _ => (.error (.other "x") : Except Exc Records)) 1 2 initialState)
          (fun _ => (.ok [] : Except Exc Records)) 6).1 = .ok v ∧
        (callWithResilience ({ retries := 0, circuitBreakerThreshold := 2, circuitResetSeconds := 5 } :
            AdapterConfig)
          (iterCalls ({ retries := 0, circuitBreakerThreshold := 2, circuitResetSeconds := 5 } :
              AdapterConfig)
            (fun _ => (.error (.other "x") : Except Exc Records)) 1 2 initialState)
          (fun _ => (.ok [] : Except Exc Records)) 6).2.1.failureCount = 0 ∧
        (callWithResilience ({ retries := 0, circuitBreakerThreshold := 2, circuitResetSeconds := 5 } :
            AdapterConfig)
          (iterCalls ({ retries := 0, circuitBreakerThreshold := 2, circuitResetSeconds := 5 } :
              AdapterConfig)
            (fun _ => (.error (.other "x") : Except Exc Records)) 1 2 initialState)
          (fun _ => (.ok [] : Except Exc Records)) 6).2.1.openedUntil = 0)) :=
  circuit_breaker_open_and_reset
    ({ retries := 0, circuitBreakerThreshold := 2, circuitResetSeconds := 5 } : AdapterConfig)
    (fun _ => (.error (.other "x") : Except Exc Records))
    (fun _ => (.ok [] : Except Exc Records))
    (.other "x") initialState 1 3 6
    rfl (by decide) (by decide) rfl rfl rfl

/-! ## C4: the open-circuit invariant (corrected) -/

/-- C4 counterexample: with `circuit_breaker_threshold = 1` and
`retries = 1`, a single protected call whose operation fails on attempt 1
(opening the circuit) and succeeds on attempt 2 ends in a reachable state
with `opened_until` set while `failure_count = 0 < threshold`: the success
resets the failure count but never clears `opened_until`. -/
theorem circuit_invariant_counterexample :
    ((callWithResilience
        ({ retries := 1, circuitBreakerThreshold := 1, circuitResetSeconds := 5 } : AdapterConfig)
        initialState
        (fun i => if i = 1 then (.error (.other "boom") : Except Exc Records) else .ok [])
        10).2.1.openedUntil ≠ 0) ∧
    ((callWithResilience
        ({ retries := 1, circuitBreakerThreshold := 1, circuitResetSeconds := 5 } : AdapterConfig)
        initialState
        (fun i => if i = 1 then (.error (.other "boom") : Except Exc Records) else .ok [])
        10).2.1.failureCount <
      ({ retries := 1, circuitBreakerThreshold := 1, circuitResetSeconds := 5 } :
        AdapterConfig).circuitBreakerThreshold) := by
  decide

/-- C4 (amended): `opened_until` is only ever assigned by the failure
transition, and only at a moment when the updated `failure_count` has
reached the threshold; the success transition and the circuit gate never
set it (the gate only clears it).  The original all-reachable-states
invariant fails because a recorded success resets `failure_count` to zero
while leaving `opened_until` in place. -/
theorem circuit_open_only_at_threshold
    (cfg : AdapterConfig) (st : AdapterState) (now : Nat) :
    ((recordFailure cfg st now).openedUntil ≠ st.openedUntil →
        cfg.circuitBreakerThreshold ≤ (recordFailure cfg st now).failureCount) ∧
    ((recordSuccess st).openedUntil = st.openedUntil) ∧
    (∀ st', ensureCircuitAllows st now = some st' →
        st'.openedUntil = 0 ∨ st'.openedUntil = st.openedUntil) := by
  refine ⟨?_, rfl, ?_⟩
  · by_cases h : cfg.circuitBreakerThreshold ≤ st.failureCount + 1
    · intro _
      simpa [recordFailure] using h
    · intro hne
      exact absurd (by simp [recordFailure, h]) hne
  · intro st' h
    unfold ensureCircuitAllows at h
    split at h
    · exact absurd h (by simp)
    · split at h
      · cases h; exact Or.inl rfl
      · cases h; exact Or.inr rfl

/-- C4 amended witness: with threshold 1, a failure from the fresh state
assigns `opened_until` and indeed reaches the threshold; a success
preserves `opened_until`; the gate on a closed circuit changes nothing. -/
theorem circuit_open_only_at_threshold_witness :
    ((recordFailure ({ circuitBreakerThreshold := 1 } : AdapterConfig) initialState 10).openedUntil ≠
        initialState.openedUntil) ∧
    (({ circuitBreakerThreshold := 1 } : AdapterConfig).circuitBreakerThreshold ≤
        (recordFailure ({ circuitBreakerThreshold := 1 } : AdapterConfig) initialState 10).failureCount) ∧
    ((recordSuccess initialState).openedUntil = initialState.openedUntil) ∧
    (ensureCircuitAllows initialState 10 = some initialState ∧
      (initialState.openedUntil = 0 ∨ initialState.openedUntil = initialState.openedUntil)) := by
  refine ⟨by decide,
    (circuit_open_only_at_threshold ({ circuitBreakerThreshold := 1 } : AdapterConfig)
      initialState 10).1 (by decide),
    (circuit_open_only_at_threshold ({ circuitBreakerThreshold := 1 } : AdapterConfig)
      initialState 10).2.1,
    by decide,
    (circuit_open_only_at_threshold ({ circuitBreakerThreshold := 1 } : AdapterConfig)
      initialState 10).2.2 initialState (by decide)⟩

/-! ## The cache key is a canonical form of the query map -/

/-- `pairLe` is transitive. -/
theorem pairLe_trans : ∀ (a b c : String × Nat), pairLe a b → pairLe b c → pairLe a c := by
  intro a b c h1 h2
  simp only [pairLe, Bool.or_eq_true, Bool.and_eq_true, decide_eq_true_eq] at h1 h2 ⊢
  rcases h1 with h1 | ⟨h1e, h1n⟩ <;> rcases h2 with h2 | ⟨h2e, h2n⟩
  · exact Or.inl (lt_trans h1 h2)
  · exact Or.inl (h2e ▸ h1)
  · exact Or.inl (h1e ▸ h2)
  · exact Or.inr ⟨h1e.trans h2e, le_trans h1n h2n⟩

/-- `pairLe` is total. -/
theorem pairLe_total : ∀ (a b : String × Nat), pairLe a b || pairLe b a := by
  intro a b
  simp only [pairLe, Bool.or_eq_true, Bool.and_eq_true, decide_eq_true_eq]
  rcases lt_trichotomy a.1 b.1 with h | h | h
  · exact Or.inl (Or.inl h)
  · rcases Nat.le_total a.2 b.2 with hn | hn
    · exact Or.inl (Or.inr ⟨h, hn⟩)
    · exact Or.inr (Or.inr ⟨h.symm, hn⟩)
  · exact Or.inr (Or.inl h)

/-- `pairLe` is antisymmetric. -/
theorem pairLe_antisymm : ∀ (a b : String × Nat), pairLe a b → pairLe b a → a = b := by
  intro a b h1 h2
  simp only [pairLe, Bool.or_eq_true, Bool.and_eq_true, decide_eq_true_eq] at h1 h2
  rcases h1 with h1 | ⟨h1e, h1n⟩ <;> rcases h2 with h2 | ⟨h2e, h2n⟩
  · exact absurd h2 (lt_asymm h1)
  · exact absurd (h2e ▸ h1) (lt_irrefl _)
  · exact absurd (h1e ▸ h2) (lt_irrefl _)
  · exact Prod.ext h1e (le_antisymm h1n h2n)

/-- Two queries that are equal as maps (their item lists are permutations
of each other) produce the same cache key: sorting is a canonical form. -/
theorem cacheKey_perm (q q' : Query) (h : q.Perm q') : cacheKey q = cacheKey q' := by
  haveI : IsAntisymm (String × Nat) (fun a b => pairLe a b = true) :=
    ⟨fun a b h1 h2 => pairLe_antisymm a b h1 h2⟩
  have hs1 := List.sorted_mergeSort pairLe_trans pairLe_total q
  have hs2 := List.sorted_mergeSort pairLe_trans pairLe_total q'
  have hperm : (q.mergeSort pairLe).Perm (q'.mergeSort pairLe) :=
    ((List.mergeSort_perm q pairLe).trans h).trans (List.mergeSort_perm q' pairLe).symm
  exact List.eq_of_perm_of_sorted hperm hs1 hs2

/-! ## Cache lemmas -/

/-- Erasing a key never lengthens the cache. -/
theorem eraseKey_length_le (k : CacheKey) (c : Cache) :
    (eraseKey k c).length ≤ c.length :=
  List.length_filter_le _ c

/-- Erasing a key that is present strictly shortens the cache. -/
theorem eraseKey_length_lt (k : CacheKey) (c : Cache) (p : Nat × Records)
    (h : lookupKey k c = some p) : (eraseKey k c).length < c.length := by
  unfold lookupKey at h
  cases hf : c.find? (fun e => decide (e.1 = k)) with
  | none => rw [hf] at h; cases h
  | some a =>
    have hmem := List.mem_of_find?_eq_some hf
    have hp : a.1 = k := by simpa using List.find?_some hf
    refine List.length_filter_lt_length_iff_exists.mpr ⟨a, hmem, ?_⟩
    simp [hp]

/-- If no entry carries the key, erasing it is the identity. -/
theorem eraseKey_eq_self (k : CacheKey) (c : Cache) (h : ∀ e ∈ c, e.1 ≠ k) :
    eraseKey k c = c := by
  unfold eraseKey
  exact List.filter_eq_self.mpr (fun e he => by simpa using h e he)

/-- A missing key means no entry carries it. -/
theorem lookupKey_none (k : CacheKey) (c : Cache) (h : lookupKey k c = none) :
    ∀ e ∈ c, e.1 ≠ k := by
  intro e he
  unfold lookupKey at h
  cases hf : c.find? (fun x => decide (x.1 = k)) with
  | none => simpa using List.find?_eq_none.mp hf e he
  | some a => rw [hf] at h; cases h

/-- Looking up the key of the entry appended behind a key-free prefix
finds that entry. -/
theorem lookupKey_append_last (k : CacheKey) (pre : Cache) (p : Nat × Records)
    (h : ∀ e ∈ pre, e.1 ≠ k) : lookupKey k (pre ++ [(k, p)]) = some p := by
  unfold lookupKey
  have hfind : (pre ++ [(k, p)]).find? (fun x => decide (x.1 = k)) = some (k, p) := by
    induction pre with
    | nil => simp [List.find?]
    | cons a t ih =>
      have ha : decide (a.1 = k) = false := by
        simpa using h a (List.mem_cons_self a t)
      simp only [List.cons_append, List.find?, ha]
      exact ih (fun e he => h e (List.mem_cons_of_mem a he))
  rw [hfind]

/-- Equation: a get with caching disabled. -/
theorem getCached_ttl_zero (cfg : AdapterConfig) (c : Cache) (key : CacheKey) (now : Nat)
    (h : cfg.cacheTtl = 0) : getCached cfg c key now = (none, c) := by
  unfold getCached; rw [if_pos h]

/-- Equation: a get whose key is absent. -/
theorem getCached_eq_absent (cfg : AdapterConfig) (c : Cache) (key : CacheKey) (now : Nat)
    (httl : cfg.cacheTtl ≠ 0) (hl : lookupKey key c = none) :
    getCached cfg c key now = (none, c) := by
  unfold getCached; rw [if_neg httl, hl]

/-- Equation: a get whose entry has expired pops the entry. -/
theorem getCached_eq_expired (cfg : AdapterConfig) (c : Cache) (key : CacheKey) (now : Nat)
    (entry : Nat × Records)
    (httl : cfg.cacheTtl ≠ 0) (hl : lookupKey key c = some entry) (hexp : entry.1 < now) :
    getCached cfg c key now = (none, eraseKey key c) := by
  unfold getCached
  rw [if_neg httl, hl]
  show (if entry.1 < now then ((none, eraseKey key c) : Option Records × Cache)
    else (some entry.2, eraseKey key c ++ [(key, entry)])) = (none, eraseKey key c)
  rw [if_pos hexp]

/-- Equation: an unexpired hit returns the value and moves the entry to
the most-recently-used end. -/
theorem getCached_eq_hit (cfg : AdapterConfig) (c : Cache) (key : CacheKey) (now : Nat)
    (entry : Nat × Records)
    (httl : cfg.cacheTtl ≠ 0) (hl : lookupKey key c = some entry) (hexp : ¬ entry.1 < now) :
    getCached cfg c key now = (some entry.2, eraseKey key c ++ [(key, entry)]) := by
  unfold getCached
  rw [if_neg httl, hl]
  show (if entry.1 < now then ((none, eraseKey key c) : Option Records × Cache)
    else (some entry.2, eraseKey key c ++ [(key, entry)])) = _
  rw [if_neg hexp]

/-- A put never pushes the cache beyond its size bound. -/
theorem setCache_length_le (cfg : AdapterConfig) (c : Cache) (k : CacheKey)
    (v : Records) (n : Nat) (h : c.length ≤ cfg.cacheSize) :
    (setCache cfg c k v n).length ≤ cfg.cacheSize := by
  unfold setCache
  split
  · exact h
  · split
    · have htail := List.length_tail (eraseKey k c ++ [(k, (n + cfg.cacheTtl, v))])
      have herase := eraseKey_length_le k c
      have happ : (eraseKey k c ++ [(k, (n + cfg.cacheTtl, v))]).length =
          (eraseKey k c).length + 1 := by simp
      omega
    · have happ : (eraseKey k c ++ [(k, (n + cfg.cacheTtl, v))]).length =
          (eraseKey k c).length + 1 := by simp
      omega

/-- A get never lengthens the cache. -/
theorem getCached_length_le (cfg : AdapterConfig) (c : Cache) (k : CacheKey) (n : Nat)
    (h : c.length ≤ cfg.cacheSize) :
    ((getCached cfg c k n).2).length ≤ cfg.cacheSize := by
  by_cases httl : cfg.cacheTtl = 0
  · rw [getCached_ttl_zero cfg c k n httl]; exact h
  · cases hl : lookupKey k c with
    | none => rw [getCached_eq_absent cfg c k n httl hl]; exact h
    | some entry =>
      have hlt := eraseKey_length_lt k c entry hl
      by_cases hexp : entry.1 < n
      · rw [getCached_eq_expired cfg c k n entry httl hl hexp]
        show (eraseKey k c).length ≤ cfg.cacheSize
        have := eraseKey_length_le k c
        omega
      · rw [getCached_eq_hit cfg c k n entry httl hl hexp]
        show (eraseKey k c ++ [(k, entry)]).length ≤ cfg.cacheSize
        simp only [List.length_append, List.length_singleton]
        omega

/-! ## C5: cache size bound and least-recently-used eviction -/

/-- C5: along any sequence of cache operations the size bound
`cache_size` is preserved, a put of a new key into a full cache evicts
exactly the head entry (the least-recently-used one, `popitem(last=False)`)
while appending the new entry at the most-recently-used end, and an
unexpired hit moves its entry to the most-recently-used end. -/
theorem cache_bound_and_lru_eviction (cfg : AdapterConfig) :
    (∀ (ops : List CacheOp) (c : Cache), c.length ≤ cfg.cacheSize →
        (runCacheOps cfg c ops).length ≤ cfg.cacheSize) ∧
    (∀ (c : Cache) (k : CacheKey) (v : Records) (n : Nat),
        cfg.cacheTtl ≠ 0 → lookupKey k c = none → c.length = cfg.cacheSize →
        0 < cfg.cacheSize →
        setCache cfg c k v n = c.tail ++ [(k, (n + cfg.cacheTtl, v))]) ∧
    (∀ (c : Cache) (k : CacheKey) (expiresAt : Nat) (value : Records) (n : Nat),
        cfg.cacheTtl ≠ 0 → lookupKey k c = some (expiresAt, value) → ¬(expiresAt < n) →
        (getCached cfg c k n).2 = eraseKey k c ++ [(k, (expiresAt, value))]) := by
  refine ⟨?_, ?_, ?_⟩
  · intro ops
    induction ops with
    | nil => intro c h; exact h
    | cons o os ih =>
      intro c h
      cases o with
      | put k v n => exact ih _ (setCache_length_le cfg c k v n h)
      | get k n => exact ih _ (getCached_length_le cfg c k n h)
  · intro c k v n httl hmiss hfull hpos
    have herase : eraseKey k c = c := eraseKey_eq_self k c (lookupKey_none k c hmiss)
    unfold setCache
    rw [if_neg httl, herase]
    rw [if_pos (by simp [List.length_append]; omega)]
    have hne : c ≠ [] := by
      intro hnil
      rw [hnil] at hfull
      simp at hfull
      omega
    cases c with
    | nil => exact absurd rfl hne
    | cons a t => simp
  · intro c k expiresAt value n httl hhit hunexp
    rw [getCached_eq_hit cfg c k n (expiresAt, value) httl hhit hunexp]

/-- C5 witness: with `cache_size = 2`, three puts keep the size within
bound; a put of a new third key into the full cache drops the head (the
least-recently-used entry); an unexpired hit moves its entry to the end. -/
theorem cache_bound_and_lru_eviction_witness :
    (([] : Cache).length ≤ ({ cacheTtl := 10, cacheSize := 2 } : AdapterConfig).cacheSize ∧
     (runCacheOps ({ cacheTtl := 10, cacheSize := 2 } : AdapterConfig) []
        [.put [("a", 1)] [] 0, .put [("b", 2)] [] 0, .put [("c", 3)] [] 0]).length ≤
      ({ cacheTtl := 10, cacheSize := 2 } : AdapterConfig).cacheSize) ∧
    (setCache ({ cacheTtl := 10, cacheSize := 2 } : AdapterConfig)
        ([([("a", 1)], (10, [])), ([("b", 2)], (10, []))] : Cache) [("c", 3)] [] 0 =
      ([([("a", 1)], (10, [])), ([("b", 2)], (10, []))] : Cache).tail ++
        [([("c", 3)], (0 + ({ cacheTtl := 10, cacheSize := 2 } : AdapterConfig).cacheTtl, []))]) ∧
    ((getCached ({ cacheTtl := 10, cacheSize := 2 } : AdapterConfig)
        ([([("a", 1)], (10, [])), ([("b", 2)], (10, []))] : Cache) [("a", 1)] 5).2 =
      eraseKey [("a", 1)] ([([("a", 1)], (10, [])), ([("b", 2)], (10, []))] : Cache) ++
        [([("a", 1)], (10, []))]) := by
  refine ⟨⟨by decide, ?_⟩, ?_, ?_⟩
  · exact (cache_bound_and_lru_eviction ({ cacheTtl := 10, cacheSize := 2 } : AdapterConfig)).1
      [.put [("a", 1)] [] 0, .put [("b", 2)] [] 0, .put [("c", 3)] [] 0] [] (by decide)
  · exact (cache_bound_and_lru_eviction ({ cacheTtl := 10, cacheSize := 2 } : AdapterConfig)).2.1
      ([([("a", 1)], (10, [])), ([("b", 2)], (10, []))] : Cache) [("c", 3)] [] 0
      (by decide) (by decide) (by decide) (by decide)
  · exact (cache_bound_and_lru_eviction ({ cacheTtl := 10, cacheSize := 2 } : AdapterConfig)).2.2
      ([([("a", 1)], (10, [])), ([("b", 2)], (10, []))] : Cache) [("a", 1)] 10 [] 5
      (by decide) (by decide) (by decide)

/-! ## Frame lemmas for the protected call -/

/-- The attempt loop never touches the cache. -/
theorem retryAttempts_cache (cfg : AdapterConfig) (op : Nat → Except Exc α) (now : Nat) :
    ∀ (remaining attempt : Nat) (st : AdapterState),
      (retryAttempts cfg op now attempt remaining st).2.1.cache = st.cache := by
  intro remaining
  induction remaining with
  | zero =>
    intro attempt st
    cases h : op attempt <;> simp [retryAttempts, h, recordSuccess, recordFailure]
  | succ r ih =>
    intro attempt st
    cases h : op attempt <;> simp [retryAttempts, h, recordSuccess, recordFailure, ih]

/-- A protected call never touches the cache. -/
theorem callWithResilience_cache (cfg : AdapterConfig) (st : AdapterState)
    (op : Nat → Except Exc α) (now : Nat) :
    (callWithResilience cfg st op now).2.1.cache = st.cache := by
  unfold callWithResilience
  cases hec : ensureCircuitAllows
      { st with rateWindow := trimWindow cfg.perSeconds st.rateWindow now ++ [now] } now with
  | none => simp [hec]
  | some st1 =>
    have hframe := (ensureCircuitAllows_frame _ st1 now hec).2
    simp only [hec]
    cases hr : (retryAttempts cfg op now 1 cfg.retries st1).1 <;>
      simp [hr, retryAttempts_cache, hframe]

/-- A protected call through a non-open circuit invokes the hook at least
once. -/
theorem callWithResilience_count_pos (cfg : AdapterConfig) (st : AdapterState)
    (op : Nat → Except Exc α) (now : Nat)
    (h : ¬(st.openedUntil ≠ 0 ∧ now < st.openedUntil)) :
    1 ≤ (callWithResilience cfg st op now).2.2 := by
  obtain ⟨st1, hst1⟩ := ensureCircuitAllows_some
    { st with rateWindow := trimWindow cfg.perSeconds st.rateWindow now ++ [now] } now h
  rw [callWithResilience_of_allowed cfg st st1 op now hst1]
  exact retryAttempts_count_pos cfg op now 1 cfg.retries st1

/-! ## Equations for the public operations -/

/-- Equation: a fetch that hits the cache. -/
theorem fetch_eq_hit (cfg : AdapterConfig) (st : AdapterState) (query : Query)
    (op : Nat → Except Exc Records) (now : Nat) (v : Records) (c' : Cache)
    (h : getCached cfg st.cache (cacheKey query) now = (some v, c')) :
    fetch cfg st query op now = (.ok v, { st with cache := c' }, 0) := by
  unfold fetch
  simp only [h]

/-- Equation: a fetch miss whose protected call succeeds. -/
theorem fetch_eq_miss_ok (cfg : AdapterConfig) (st : AdapterState) (query : Query)
    (op : Nat → Except Exc Records) (now : Nat) (c' : Cache) (v : Records)
    (h : getCached cfg st.cache (cacheKey query) now = (none, c'))
    (hcall : (callWithResilience cfg { st with cache := c' } op now).1 = .ok v) :
    fetch cfg st query op now =
      (.ok v,
       { (callWithResilience cfg { st with cache := c' } op now).2.1 with
         cache := setCache cfg
           (callWithResilience cfg { st with cache := c' } op now).2.1.cache
           (cacheKey query) v now },
       (callWithResilience cfg { st with cache := c' } op now).2.2) := by
  unfold fetch
  simp only [h, hcall]

/-- Equation: a fetch miss whose protected call fails. -/
theorem fetch_eq_miss_error (cfg : AdapterConfig) (st : AdapterState) (query : Query)
    (op : Nat → Except Exc Records) (now : Nat) (c' : Cache) (e : AdapterFailure)
    (h : getCached cfg st.cache (cacheKey query) now = (none, c'))
    (hcall : (callWithResilience cfg { st with cache := c' } op now).1 = .error e) :
    fetch cfg st query op now =
      (.error e,
       (callWithResilience cfg { st with cache := c' } op now).2.1,
       (callWithResilience cfg { st with cache := c' } op now).2.2) := by
  unfold fetch
  simp only [h, hcall]

/-- On a miss, the fetch invocation count is the protected call's count. -/
theorem fetch_count_miss (cfg : AdapterConfig) (st : AdapterState) (query : Query)
    (op : Nat → Except Exc Records) (now : Nat) (c' : Cache)
    (h : getCached cfg st.cache (cacheKey query) now = (none, c')) :
    (fetch cfg st query op now).2.2 =
      (callWithResilience cfg { st with cache := c' } op now).2.2 := by
  unfold fetch
  simp only [h]
  cases hr : (callWithResilience cfg { st with cache := c' } op now).1 <;> simp [hr]

/-- Equation: a successful upsert clears the cache. -/
theorem upsert_eq_ok (cfg : AdapterConfig) (st : AdapterState) (op : Nat → Except Exc α)
    (now : Nat) (v : α) (h : (callWithResilience cfg st op now).1 = .ok v) :
    upsert cfg st op now =
      (.ok v, clearCache (callWithResilience cfg st op now).2.1,
       (callWithResilience cfg st op now).2.2) := by
  unfold upsert
  simp only [h]

/-- Equation: a failed upsert does not clear the cache. -/
theorem upsert_eq_error (cfg : AdapterConfig) (st : AdapterState) (op : Nat → Except Exc α)
    (now : Nat) (e : AdapterFailure) (h : (callWithResilience cfg st op now).1 = .error e) :
    upsert cfg st op now =
      (.error e, (callWithResilience cfg st op now).2.1,
       (callWithResilience cfg st op now).2.2) := by
  unfold upsert
  simp only [h]

/-- Equation: a successful delete clears the cache. -/
theorem delete_eq_ok (cfg : AdapterConfig) (st : AdapterState) (op : Nat → Except Exc α)
    (now : Nat) (v : α) (h : (callWithResilience cfg st op now).1 = .ok v) :
    delete cfg st op now =
      (.ok v, clearCache (callWithResilience cfg st op now).2.1,
       (callWithResilience cfg st op now).2.2) := by
  unfold delete
  simp only [h]

/-- Equation: a failed delete does not clear the cache. -/
theorem delete_eq_error (cfg : AdapterConfig) (st : AdapterState) (op : Nat → Except Exc α)
    (now : Nat) (e : AdapterFailure) (h : (callWithResilience cfg st op now).1 = .error e) :
    delete cfg st op now =
      (.error e, (callWithResilience cfg st op now).2.1,
       (callWithResilience cfg st op now).2.2) := by
  unfold delete
  simp only [h]

/-! ## C2: fetch caching -/

/-- After a get that reported a miss, no surviving entry carries the key. -/
theorem getCached_none_fst_key_free (cfg : AdapterConfig) (c : Cache) (key : CacheKey)
    (now : Nat) (httl : cfg.cacheTtl ≠ 0)
    (h : (getCached cfg c key now).1 = none) :
    ∀ e ∈ (getCached cfg c key now).2, e.1 ≠ key := by
  cases hl : lookupKey key c with
  | none =>
    rw [getCached_eq_absent cfg c key now httl hl]
    exact lookupKey_none key c hl
  | some entry =>
    by_cases hexp : entry.1 < now
    · rw [getCached_eq_expired cfg c key now entry httl hl hexp]
      intro e he
      have hmem : e ∈ eraseKey key c := he
      simpa using List.of_mem_filter hmem
    · rw [getCached_eq_hit cfg c key now entry httl hl hexp] at h
      simp at h

/-- Putting a key into a key-free cache yields a key-free prefix followed
by the fresh entry at the most-recently-used end. -/
theorem setCache_key_free_spec (cfg : AdapterConfig) (c : Cache) (key : CacheKey)
    (v : Records) (now : Nat)
    (httl : cfg.cacheTtl ≠ 0) (hsize : 0 < cfg.cacheSize)
    (hfree : ∀ e ∈ c, e.1 ≠ key) :
    ∃ pre, setCache cfg c key v now = pre ++ [(key, (now + cfg.cacheTtl, v))] ∧
      ∀ e ∈ pre, e.1 ≠ key := by
  unfold setCache
  rw [if_neg httl, eraseKey_eq_self key c hfree]
  split
  · cases c with
    | nil =>
      exfalso
      rename_i hcond
      simp at hcond
      omega
    | cons a t =>
      exact ⟨t, by simp, fun e he => hfree e (List.mem_cons_of_mem a he)⟩
  · exact ⟨c, rfl, hfree⟩

/-- C2: after a first fetch that missed the cache and succeeded at time
`t1`, a second fetch with a map-equal query (any key order) at a time
within `cache_ttl` of `t1` returns the cached records with zero hook
invocations and leaves the rate window and circuit state untouched; once
`cache_ttl` has elapsed, a fetch (through a non-open circuit) invokes the
hook again. -/
theorem fetch_second_within_ttl_cached
    (cfg : AdapterConfig) (st : AdapterState) (q q' : Query)
    (op op' : Nat → Except Exc Records) (t1 t2 : Nat) (v : Records)
    (httl : cfg.cacheTtl ≠ 0) (hsize : 0 < cfg.cacheSize)
    (hperm : List.Perm q q')
    (hmiss : (getCached cfg st.cache (cacheKey q) t1).1 = none)
    (hok : (fetch cfg st q op t1).1 = .ok v) :
    (t2 ≤ t1 + cfg.cacheTtl →
      (fetch cfg (fetch cfg st q op t1).2.1 q' op' t2).1 = .ok v ∧
      (fetch cfg (fetch cfg st q op t1).2.1 q' op' t2).2.2 = 0 ∧
      (fetch cfg (fetch cfg st q op t1).2.1 q' op' t2).2.1.rateWindow =
        (fetch cfg st q op t1).2.1.rateWindow ∧
      (fetch cfg (fetch cfg st q op t1).2.1 q' op' t2).2.1.failureCount =
        (fetch cfg st q op t1).2.1.failureCount ∧
      (fetch cfg (fetch cfg st q op t1).2.1 q' op' t2).2.1.openedUntil =
        (fetch cfg st q op t1).2.1.openedUntil) ∧
    (t1 + cfg.cacheTtl < t2 →
      ¬((fetch cfg st q op t1).2.1.openedUntil ≠ 0 ∧
         t2 < (fetch cfg st q op t1).2.1.openedUntil) →
      1 ≤ (fetch cfg (fetch cfg st q op t1).2.1 q' op' t2).2.2) := by
  have hpair : getCached cfg st.cache (cacheKey q) t1 =
      (none, (getCached cfg st.cache (cacheKey q) t1).2) := Prod.ext hmiss rfl
  have hr : (callWithResilience cfg
      { st with cache := (getCached cfg st.cache (cacheKey q) t1).2 } op t1).1 = .ok v := by
    cases hc : (callWithResilience cfg
        { st with cache := (getCached cfg st.cache (cacheKey q) t1).2 } op t1).1 with
    | ok w =>
      rw [fetch_eq_miss_ok cfg st q op t1 _ w hpair hc] at hok
      exact hok
    | error e =>
      rw [fetch_eq_miss_error cfg st q op t1 _ e hpair hc] at hok
      simp at hok
  have hfeq := fetch_eq_miss_ok cfg st q op t1 _ v hpair hr
  have hccache : (callWithResilience cfg
      { st with cache := (getCached cfg st.cache (cacheKey q) t1).2 } op t1).2.1.cache =
      (getCached cfg st.cache (cacheKey q) t1).2 :=
    callWithResilience_cache cfg _ op t1
  have hfree := getCached_none_fst_key_free cfg st.cache (cacheKey q) t1 httl hmiss
  obtain ⟨pre, hpre, hprefree⟩ := setCache_key_free_spec cfg
    (getCached cfg st.cache (cacheKey q) t1).2 (cacheKey q) v t1 httl hsize hfree
  have hst1cache : (fetch cfg st q op t1).2.1.cache =
      pre ++ [(cacheKey q, (t1 + cfg.cacheTtl, v))] := by
    rw [hfeq]
    show setCache cfg (callWithResilience cfg
      { st with cache := (getCached cfg st.cache (cacheKey q) t1).2 } op t1).2.1.cache
      (cacheKey q) v t1 = _
    rw [hccache]
    exact hpre
  have hkey' : cacheKey q' = cacheKey q := (cacheKey_perm q q' hperm).symm
  have hlook : lookupKey (cacheKey q) ((fetch cfg st q op t1).2.1.cache) =
      some (t1 + cfg.cacheTtl, v) := by
    rw [hst1cache]
    exact lookupKey_append_last (cacheKey q) pre (t1 + cfg.cacheTtl, v) hprefree
  refine ⟨?_, ?_⟩
  · intro ht2
    have hget2 : getCached cfg (fetch cfg st q op t1).2.1.cache (cacheKey q') t2 =
        (some v, eraseKey (cacheKey q) ((fetch cfg st q op t1).2.1.cache) ++
          [(cacheKey q, (t1 + cfg.cacheTtl, v))]) := by
      rw [hkey']
      exact getCached_eq_hit cfg _ (cacheKey q) t2 (t1 + cfg.cacheTtl, v) httl hlook
        (by omega)
    rw [fetch_eq_hit cfg (fetch cfg st q op t1).2.1 q' op' t2 v _ hget2]
    exact ⟨rfl, rfl, rfl, rfl, rfl⟩
  · intro ht2 hcirc
    have hget2 : getCached cfg (fetch cfg st q op t1).2.1.cache (cacheKey q') t2 =
        (none, eraseKey (cacheKey q) ((fetch cfg st q op t1).2.1.cache)) := by
      rw [hkey']
      exact getCached_eq_expired cfg _ (cacheKey q) t2 (t1 + cfg.cacheTtl, v) httl hlook
        (by omega)
    rw [fetch_count_miss cfg (fetch cfg st q op t1).2.1 q' op' t2 _ hget2]
    exact callWithResilience_count_pos cfg _ op' t2 hcirc

/-- C2 witness: a fetch of `{a: 1, b: 2}`, then a fetch of the same map
written `{b: 2, a: 1}` five time units later (within the TTL of 10):
the cached records come back with zero hook invocations. -/
theorem fetch_second_within_ttl_cached_witness :
    (fetch ({ cacheTtl := 10, cacheSize := 2 } : AdapterConfig)
        (fetch ({ cacheTtl := 10, cacheSize := 2 } : AdapterConfig) initialState
          [("a", 1), ("b", 2)] (fun _ => .ok [[("r", 1)]]) 0).2.1
        [("b", 2), ("a", 1)] (fun _ => .ok [[("r", 1)]]) 5).1 = .ok [[("r", 1)]] ∧
    (fetch ({ cacheTtl := 10, cacheSize := 2 } : AdapterConfig)
        (fetch ({ cacheTtl := 10, cacheSize := 2 } : AdapterConfig) initialState
          [("a", 1), ("b", 2)] (fun _ => .ok [[("r", 1)]]) 0).2.1
        [("b", 2), ("a", 1)] (fun _ => .ok [[("r", 1)]]) 5).2.2 = 0 := by
  have h := (fetch_second_within_ttl_cached ({ cacheTtl := 10, cacheSize := 2 } : AdapterConfig)
      initialState [("a", 1), ("b", 2)] [("b", 2), ("a", 1)]
      (fun _ => .ok [[("r", 1)]]) (fun _ => .ok [[("r", 1)]]) 0 5 [[("r", 1)]]
      (by decide) (by decide) (by decide) rfl rfl).1 (by decide)
  exact ⟨h.1, h.2.1⟩

/-! ## C6: write-through invalidation -/

/-- C6: a successful upsert or delete clears the entire cache — not only
entries related to the written key — so the next fetch for any query
(through a non-open circuit) invokes the underlying hook again. -/
theorem write_clears_cache_and_next_fetch_refetches
    (cfg : AdapterConfig) (st st' : AdapterState) (op op2 : Nat → Except Exc α)
    (opf : Nat → Except Exc Records) (q : Query) (now t : Nat) :
    (∀ v, (upsert cfg st op now).1 = .ok v → (upsert cfg st op now).2.1.cache = []) ∧
    (∀ v, (delete cfg st op2 now).1 = .ok v → (delete cfg st op2 now).2.1.cache = []) ∧
    (st'.cache = [] → ¬(st'.openedUntil ≠ 0 ∧ t < st'.openedUntil) →
      1 ≤ (fetch cfg st' q opf t).2.2) := by
  refine ⟨?_, ?_, ?_⟩
  · intro v hok
    cases hc : (callWithResilience cfg st op now).1 with
    | ok w => rw [upsert_eq_ok cfg st op now w hc]; rfl
    | error e => rw [upsert_eq_error cfg st op now e hc] at hok; simp at hok
  · intro v hok
    cases hc : (callWithResilience cfg st op2 now).1 with
    | ok w => rw [delete_eq_ok cfg st op2 now w hc]; rfl
    | error e => rw [delete_eq_error cfg st op2 now e hc] at hok; simp at hok
  · intro hcache hcirc
    have hget : getCached cfg st'.cache (cacheKey q) t = (none, st'.cache) := by
      by_cases h0 : cfg.cacheTtl = 0
      · exact getCached_ttl_zero cfg st'.cache (cacheKey q) t h0
      · refine getCached_eq_absent cfg st'.cache (cacheKey q) t h0 ?_
        rw [hcache]
        rfl
    rw [fetch_count_miss cfg st' q opf t st'.cache hget]
    exact callWithResilience_count_pos cfg _ opf t hcirc

/-- C6 witness: from a state with one cached entry, a successful upsert
and a successful delete leave an empty cache, and the next fetch invokes
the hook. -/
theorem write_clears_cache_and_next_fetch_refetches_witness :
    ((upsert ({ } : AdapterConfig)
        ({ rateWindow := [], cache := [([("k", 1)], (10, []))], failureCount := 0,
           openedUntil := 0 } : AdapterState)
        (fun _ => (.ok 42 : Except Exc Nat)) 0).1 = .ok 42 ∧
     (upsert ({ } : AdapterConfig)
        ({ rateWindow := [], cache := [([("k", 1)], (10, []))], failureCount := 0,
           openedUntil := 0 } : AdapterState)
        (fun _ => (.ok 42 : Except Exc Nat)) 0).2.1.cache = []) ∧
    ((delete ({ } : AdapterConfig)
        ({ rateWindow := [], cache := [([("k", 1)], (10, []))], failureCount := 0,
           openedUntil := 0 } : AdapterState)
        (fun _ => (.ok 42 : Except Exc Nat)) 0).2.1.cache = []) ∧
    (1 ≤ (fetch ({ } : AdapterConfig) initialState [("k", 1)]
        (fun _ => (.ok [] : Except Exc Records)) 0).2.2) := by
  refine ⟨⟨rfl, ?_⟩, ?_, ?_⟩
  · exact (write_clears_cache_and_next_fetch_refetches ({ } : AdapterConfig)
      ({ rateWindow := [], cache := [([("k", 1)], (10, []))], failureCount := 0,
         openedUntil := 0 } : AdapterState) initialState
      (fun _ => (.ok 42 : Except Exc Nat)) (fun _ => (.ok 42 : Except Exc Nat))
      (fun _ => (.ok [] : Except Exc Records)) [("k", 1)] 0 0).1 42 rfl
  · exact (write_clears_cache_and_next_fetch_refetches ({ } : AdapterConfig)
      ({ rateWindow := [], cache := [([("k", 1)], (10, []))], failureCount := 0,
         openedUntil := 0 } : AdapterState) initialState
      (fun _ => (.ok 42 : Except Exc Nat)) (fun _ => (.ok 42 : Except Exc Nat))
      (fun _ => (.ok [] : Except Exc Records)) [("k", 1)] 0 0).2.1 42 rfl
  · exact (write_clears_cache_and_next_fetch_refetches ({ } : AdapterConfig)
      ({ rateWindow := [], cache := [([("k", 1)], (10, []))], failureCount := 0,
         openedUntil := 0 } : AdapterState) initialState
      (fun _ => (.ok 42 : Except Exc Nat)) (fun _ => (.ok 42 : Except Exc Nat))
      (fun _ => (.ok [] : Except Exc Records)) [("k", 1)] 0 0).2.2 rfl (by decide)

/-! ## C7: connect error propagation (corrected) -/

/-- C7 counterexample: a `_connect_impl` hook that raises an exception
other than `AdapterError` (here, a connection-refused error) surfaces
through `connect` unchanged — `connect` does not wrap it in
`AdapterError`, because it delegates with no resilience wrapper. -/
theorem connect_wraps_counterexample :
    connect (fun _ => .error (.other "connection refused")) [] =
      .error (.other "connection refused") ∧
    (Exc.other "connection refused").isAdapterError = false :=
  ⟨rfl, rfl⟩

/-- C7 (amended): `connect` invokes the `_connect_impl` hook directly and
propagates the hook's exception unchanged, so a connection failure
surfaces as `AdapterError` only when the hook itself raises one. -/
theorem connect_propagates_hook_error
    (impl : Query → Except Exc Unit) (options : Query) (e : Exc)
    (h : impl options = .error e) :
    connect impl options = .error e := h

/-- C7 amended witness. -/
theorem connect_propagates_hook_error_witness :
    ((fun (_ : Query) => (.error (.other "boom") : Except Exc Unit)) [] =
      .error (.other "boom")) ∧
    connect (fun _ => (.error (.other "boom") : Except Exc Unit)) [] =
      .error (.other "boom") :=
  ⟨rfl, connect_propagates_hook_error (fun _ => .error (.other "boom")) [] (.other "boom") rfl⟩

/-! ## C8: rate limiter -/

/-- C8: a protected call surfaces only circuit-open or exhausted-retries
failures (the rate limiter itself contributes no error — it only delays);
one admission check admits immediately exactly when, after trimming
entries older than `per_seconds`, fewer than `max_calls` timestamps
remain; and with a full window of fresh timestamps — the `(max_calls+1)`th
call in quick succession — the caller must wait
`per_seconds - (now - oldest)` before re-checking, so it is not admitted
before `per_seconds` has elapsed since the window's oldest entry. -/
theorem rate_limiter_contract (cfg : AdapterConfig) (st : AdapterState)
    (op : Nat → Except Exc α) (w : List Nat) (now : Nat) :
    (∀ f, (callWithResilience cfg st op now).1 = .error f →
        f.msg = "Circuit breaker open" ∨ f.msg = "Operation failed after retries") ∧
    ((rateAdmitStep cfg w now).isAdmitted = true ↔
        (trimWindow cfg.perSeconds w now).length < cfg.maxCalls) ∧
    (∀ t0 rest, w = t0 :: rest → now - t0 ≤ cfg.perSeconds →
        w.length = cfg.maxCalls →
        rateAdmitStep cfg w now = .wait (cfg.perSeconds - (now - t0))) := by
  refine ⟨?_, ?_, ?_⟩
  · intro f hf
    unfold callWithResilience at hf
    cases hec : ensureCircuitAllows
        { st with rateWindow := trimWindow cfg.perSeconds st.rateWindow now ++ [now] } now with
    | none =>
      simp only [hec] at hf
      left
      have h2 : (Except.error (⟨"Circuit breaker open", none⟩ : AdapterFailure) :
          Except AdapterFailure α) = .error f := hf
      injection h2 with h2
      rw [← h2]
    | some st1 =>
      simp only [hec] at hf
      cases hr : (retryAttempts cfg op now 1 cfg.retries st1).1 with
      | ok vv =>
        simp only [hr] at hf
        have h2 : (Except.ok vv : Except AdapterFailure α) = .error f := hf
        exact Except.noConfusion h2
      | error e =>
        simp only [hr] at hf
        right
        have h2 : (Except.error (⟨"Operation failed after retries", some e⟩ : AdapterFailure) :
            Except AdapterFailure α) = .error f := hf
        injection h2 with h2
        rw [← h2]
  · by_cases h : (trimWindow cfg.perSeconds w now).length < cfg.maxCalls
    · unfold rateAdmitStep
      rw [if_pos h]
      simp [RateDecision.isAdmitted, h]
    · unfold rateAdmitStep
      rw [if_neg h]
      simp [RateDecision.isAdmitted, h]
  · intro t0 rest hw hle hlen
    subst hw
    have htrim : trimWindow cfg.perSeconds (t0 :: rest) now = t0 :: rest := by
      unfold trimWindow
      rw [List.dropWhile_cons, if_neg (by simp; omega)]
    unfold rateAdmitStep
    rw [htrim, if_neg (by rw [hlen]; exact Nat.lt_irrefl _)]
    rfl

/-- C8 witness: `max_calls = 2`, `per_seconds = 10`, window `[5, 6]` at
time 7 — the third call in quick succession waits `10 - (7 - 5)`. -/
theorem rate_limiter_contract_witness :
    ([5, 6] : List Nat) = 5 :: [6] ∧
    7 - 5 ≤ ({ maxCalls := 2, perSeconds := 10 } : AdapterConfig).perSeconds ∧
    ([5, 6] : List Nat).length = ({ maxCalls := 2, perSeconds := 10 } : AdapterConfig).maxCalls ∧
    rateAdmitStep ({ maxCalls := 2, perSeconds := 10 } : AdapterConfig) [5, 6] 7 =
      .wait (({ maxCalls := 2, perSeconds := 10 } : AdapterConfig).perSeconds - (7 - 5)) :=
  ⟨rfl, by decide, by decide,
   (rate_limiter_contract ({ maxCalls := 2, perSeconds := 10 } : AdapterConfig)
     initialState (fun _ => (.ok [] : Except Exc Records)) [5, 6] 7).2.2 5 [6]
     rfl (by decide) (by decide)⟩

/-! ## C9: payload mapping -/

/-- C9: `map_single` passes `none` through, returns the populated model
on successful validation, and on a validation failure raises an
`AdapterError` whose message names the target schema. -/
theorem map_single_contract (m : PModel α) (p : Payload) :
    (mapSingle m none = .ok none) ∧
    (∀ v, m.validate p = some v → mapSingle m (some p) = .ok (some v)) ∧
    (m.validate p = none →
      mapSingle m (some p) = .error (.adapterError ("Invalid payload for " ++ m.name))) := by
  refine ⟨rfl, ?_, ?_⟩
  · intro v h
    show (match m.validate p with
      | some v => (.ok (some v) : Except Exc (Option α))
      | none => .error (.adapterError ("Invalid payload for " ++ m.name))) = .ok (some v)
    rw [h]
  · intro h
    show (match m.validate p with
      | some v => (.ok (some v) : Except Exc (Option α))
      | none => .error (.adapterError ("Invalid payload for " ++ m.name))) =
      .error (.adapterError ("Invalid payload for " ++ m.name))
    rw [h]

/-- C9 witness: a model named `Model` validating `{value: 1}` and
rejecting `{bad: 0}`. -/
theorem map_single_contract_witness :
    (mapSingle (⟨"Model", fun p => if p = [("value", 1)] then some 1 else none⟩ : PModel Nat)
      none = .ok none) ∧
    ((⟨"Model", fun p => if p = [("value", 1)] then some 1 else none⟩ : PModel Nat).validate
        [("value", 1)] = some 1 ∧
     mapSingle (⟨"Model", fun p => if p = [("value", 1)] then some 1 else none⟩ : PModel Nat)
        (some [("value", 1)]) = .ok (some 1)) ∧
    ((⟨"Model", fun p => if p = [("value", 1)] then some 1 else none⟩ : PModel Nat).validate
        [("bad", 0)] = none ∧
     mapSingle (⟨"Model", fun p => if p = [("value", 1)] then some 1 else none⟩ : PModel Nat)
        (some [("bad", 0)]) = .error (.adapterError ("Invalid payload for " ++ "Model"))) := by
  refine ⟨?_, ⟨by decide, ?_⟩, ⟨by decide, ?_⟩⟩
  · exact (map_single_contract
      (⟨"Model", fun p => if p = [("value", 1)] then some 1 else none⟩ : PModel Nat) []).1
  · exact (map_single_contract
      (⟨"Model", fun p => if p = [("value", 1)] then some 1 else none⟩ : PModel Nat)
      [("value", 1)]).2.1 1 (by decide)
  · exact (map_single_contract
      (⟨"Model", fun p => if p = [("value", 1)] then some 1 else none⟩ : PModel Nat)
      [("bad", 0)]).2.2 (by decide)

/-! ## C10: a failed write leaves the cache unchanged -/

/-- C10: if the protected call of an upsert or delete fails (circuit open
or retries exhausted), the cache is left exactly as it was — it is
cleared only after the underlying operation succeeds — so previously
cached fetch results remain servable after a failed write. -/
theorem failed_write_leaves_cache
    (cfg : AdapterConfig) (st : AdapterState) (op op2 : Nat → Except Exc α) (now : Nat) :
    (∀ e, (upsert cfg st op now).1 = .error e →
        (upsert cfg st op now).2.1.cache = st.cache) ∧
    (∀ e, (delete cfg st op2 now).1 = .error e →
        (delete cfg st op2 now).2.1.cache = st.cache) := by
  constructor
  · intro e he
    cases hc : (callWithResilience cfg st op now).1 with
    | ok w => rw [upsert_eq_ok cfg st op now w hc] at he; simp at he
    | error e' =>
      rw [upsert_eq_error cfg st op now e' hc]
      exact callWithResilience_cache cfg st op now
  · intro e he
    cases hc : (callWithResilience cfg st op2 now).1 with
    | ok w => rw [delete_eq_ok cfg st op2 now w hc] at he; simp at he
    | error e' =>
      rw [delete_eq_error cfg st op2 now e' hc]
      exact callWithResilience_cache cfg st op2 now

/-- C10 witness: with `retries = 0` and a failing hook, the upsert and
the delete raise while the single cached entry stays in place. -/
theorem failed_write_leaves_cache_witness :
    ((upsert ({ retries := 0 } : AdapterConfig)
        ({ rateWindow := [], cache := [([("k", 1)], (10, []))], failureCount := 0,
           openedUntil := 0 } : AdapterState)
        (fun _ => (.error (.other "x") : Except Exc Nat)) 0).1 =
      .error ⟨"Operation failed after retries", some (.other "x")⟩ ∧
     (upsert ({ retries := 0 } : AdapterConfig)
        ({ rateWindow := [], cache := [([("k", 1)], (10, []))], failureCount := 0,
           openedUntil := 0 } : AdapterState)
        (fun _ => (.error (.other "x") : Except Exc Nat)) 0).2.1.cache =
      [([("k", 1)], (10, []))]) ∧
    ((delete ({ retries := 0 } : AdapterConfig)
        ({ rateWindow := [], cache := [([("k", 1)], (10, []))], failureCount := 0,
           openedUntil := 0 } : AdapterState)
        (fun _ => (.error (.other "x") : Except Exc Nat)) 0).2.1.cache =
      [([("k", 1)], (10, []))]) := by
  refine ⟨⟨rfl, ?_⟩, ?_⟩
  · exact (failed_write_leaves_cache ({ retries := 0 } : AdapterConfig)
      ({ rateWindow := [], cache := [([("k", 1)], (10, []))], failureCount := 0,
         openedUntil := 0 } : AdapterState)
      (fun _ => (.error (.other "x") : Except Exc Nat))
      (fun _ => (.error (.other "x") : Except Exc Nat)) 0).1
      ⟨"Operation failed after retries", some (.other "x")⟩ rfl
  · exact (failed_write_leaves_cache ({ retries := 0 } : AdapterConfig)
      ({ rateWindow := [], cache := [([("k", 1)], (10, []))], failureCount := 0,
         openedUntil := 0 } : AdapterState)
      (fun _ => (.error (.other "x") : Except Exc Nat))
      (fun _ => (.error (.other "x") : Except Exc Nat)) 0).2
      ⟨"Operation failed after retries", some (.other "x")⟩ rfl

end HolidayPeak
